import Mathlib

/-!
Formal model of the nvme-cli live-migration (lm) plugin
(plugins/lm/lm-nvme.c): admin-command validation and encoding for
Create/Delete CDQ, Track Send, Migration Send, Migration Receive and the
CDQ head-pointer feature, together with the controller-state decoder
(text and JSON renderings).

Machine integers are modelled as Nat (unsigned) or Int (signed), with
explicit reductions mod 2^w where the C types truncate.  External
collaborators (buffer provider, file system, transport) are passed in as
an explicit environment; each CLI operation is modelled as a function
from its parsed configuration and that environment to the returned int
plus the admin command handed to the transport, if any.
-/

namespace LmNvme

/-- C errno value EINVAL = 22. -/
def EINVAL : Int := 22

/-- C errno value ENOMEM = 12. -/
def ENOMEM : Int := 12

/-- enum lm_nvme_admin_opcode: NVME_ADMIN_TRACK_SEND. -/
def NVME_ADMIN_TRACK_SEND : Nat := 0x3D

/-- enum lm_nvme_admin_opcode: NVME_ADMIN_MIGRATION_SEND. -/
def NVME_ADMIN_MIGRATION_SEND : Nat := 0x41

/-- enum lm_nvme_admin_opcode: NVME_ADMIN_MIGRATION_RECEIVE. -/
def NVME_ADMIN_MIGRATION_RECEIVE : Nat := 0x42

/-- enum lm_nvme_admin_opcode: NVME_ADMIN_CONTROLLER_DATA_QUEUE. -/
def NVME_ADMIN_CONTROLLER_DATA_QUEUE : Nat := 0x45

/-- enum lm_cdq_select. -/
def CREATE_CONTROLLER_DATA_QUEUE : Nat := 0

/-- enum lm_cdq_select. -/
def DELETE_CONTROLLER_DATA_QUEUE : Nat := 1

/-- The fields of struct nvme_passthru_cmd that the plugin populates
(unset fields are zero, as the C designated initializers leave them). -/
structure CmdRecord where
  opcode : Nat
  cdw10 : Nat := 0
  cdw11 : Nat := 0
  cdw12 : Nat := 0
  cdw13 : Nat := 0
  cdw14 : Nat := 0
  cdw15 : Nat := 0
  addr : Nat := 0
  data_len : Nat := 0
  deriving Repr, DecidableEq

/-- Outcome of one CLI operation: the int the function returns and the
admin command handed to nvme_submit_admin_passthru, if any. -/
structure OpResult where
  ret : Int
  submitted : Option CmdRecord
  deriving Repr, DecidableEq

/-- External collaborators as seen by one operation: the huge-buffer
allocator, fopen/fread on the input file, and the transport. -/
structure Env where
  allocOk : Bool
  fopenOk : Bool
  readFull : Bool
  readErrno : Int
  bufAddr : Nat
  submitResult : Int
  deriving Repr, DecidableEq

/-- An environment in which every collaborator succeeds. -/
def envOk : Env :=
  { allocOk := true, fopenOk := true, readFull := true, readErrno := 5,
    bufAddr := 4096, submitResult := 0 }

/-! ## Create CDQ (lm_create_cdq) -/

/-- sizeof(struct lba_migration_queue_entry_type_0): 4 (nsid) + 4 (nlb)
+ 8 (slba) + 15 reserved + 1 flag byte = 32 bytes. -/
def lba_migration_queue_entry_type_0_size : Nat := 32

/-- Parsed options of lm_create_cdq: sz is __u32, cntlid __u16, qt __u8. -/
structure CreateCdqConfig where
  sz : Nat
  cntlid : Nat
  qt : Nat
  deriving Repr, DecidableEq

/-- lm_create_cdq after option parsing: the dword-size check
`cfg.sz % (sizeof(entry) >> 2)` (returning the positive EINVAL, as the
source does here), huge-buffer allocation, command construction and
submission; the submit status is returned unmodified. -/
def lm_create_cdq (cfg : CreateCdqConfig) (env : Env) : OpResult :=
  if cfg.sz % (lba_migration_queue_entry_type_0_size >>> 2) ≠ 0 then
    ⟨EINVAL, none⟩
  else if env.allocOk = false then
    ⟨-ENOMEM, none⟩
  else
    ⟨env.submitResult, some
      { opcode := NVME_ADMIN_CONTROLLER_DATA_QUEUE,
        cdw10 := (cfg.qt <<< 16) ||| CREATE_CONTROLLER_DATA_QUEUE,
        cdw11 := (cfg.cntlid <<< 16) ||| 0x1,
        cdw12 := cfg.sz,
        addr := env.bufAddr,
        data_len := (cfg.sz <<< 2) % 2 ^ 32 }⟩

/-! ## Track Send (lm_track_send) -/

/-- enum lm_track_send_select. -/
def TRACK_SEND_SELECT_LOG_USER_DATA_CHANGES : Nat := 0

/-- enum lm_track_send_mos. -/
def TRACK_SEND_MANAGEMENT_OPERATION_STOP_LOGGING : Nat := 0

/-- enum lm_track_send_mos. -/
def TRACK_SEND_MANAGEMENT_OPERATION_START_LOGGING : Nat := 1

/-- Parsed options of lm_track_send.  select and mos are __u8 fields;
the initializer `.select = -1` stores 0xFF = 255. -/
structure TrackSendConfig where
  select : Nat
  mos : Nat
  cdqid : Nat
  start : Bool
  stop : Bool
  deriving Repr, DecidableEq

/-- lm_track_send after option parsing.  The guard `cfg.select == -1`
compares the int-promoted __u8 (0..255) against -1, exactly as the C
does; the unsupported-select and start/stop checks then run before the
command words are packed. -/
def lm_track_send (cfg : TrackSendConfig) (env : Env) : OpResult :=
  if (Int.ofNat cfg.select) = -1 then
    ⟨-EINVAL, none⟩
  else if cfg.select ≠ TRACK_SEND_SELECT_LOG_USER_DATA_CHANGES then
    ⟨-EINVAL, none⟩
  else if cfg.start && cfg.stop then
    ⟨-EINVAL, none⟩
  else
    let mos :=
      if cfg.select = TRACK_SEND_SELECT_LOG_USER_DATA_CHANGES then
        if cfg.start then TRACK_SEND_MANAGEMENT_OPERATION_START_LOGGING
        else if cfg.stop then TRACK_SEND_MANAGEMENT_OPERATION_STOP_LOGGING
        else cfg.mos
      else cfg.mos
    ⟨env.submitResult, some
      { opcode := NVME_ADMIN_TRACK_SEND,
        cdw10 := cfg.select ||| (mos <<< 16),
        cdw11 := cfg.cdqid }⟩

/-! ## CDQ head-pointer feature, set side (lm_set_cdq) -/

/-- enum lm_controller_data_queue_feature_id. -/
def lm_cdq_feature_id : Nat := 0x21

/-- Parsed options of lm_set_cdq: cdqid __u16, hp __u32, tpt __s32 with
default -1 ("no trigger"). -/
structure SetCdqConfig where
  cdqid : Nat
  hp : Nat
  tpt : Int
  deriving Repr, DecidableEq

/-- The nvme_set_features argument block populated by lm_set_cdq. -/
structure SetFeaturesArgs where
  fid : Nat
  cdw11 : Nat
  cdw12 : Nat
  cdw13 : Nat
  deriving Repr, DecidableEq

/-- lm_set_cdq argument construction: cdw11 carries the cdq id and, when
`cfg.tpt >= 0`, bit 31; the signed trigger is stored into the __u32
cdw13 by two's-complement conversion (reduction mod 2^32). -/
def lm_set_cdq_args (cfg : SetCdqConfig) : SetFeaturesArgs :=
  { fid := lm_cdq_feature_id,
    cdw11 := cfg.cdqid ||| (if cfg.tpt ≥ 0 then 1 <<< 31 else 0),
    cdw12 := cfg.hp,
    cdw13 := (cfg.tpt % 2 ^ 32).toNat }

/-! ## Theorems for claims C8, C9, C10 -/

/-- C8: for every Create CDQ request with size s (in dwords), if s is not
a multiple of 8 the operation returns EINVAL before any command is
encoded or submitted; if s is a multiple of 8 this validation passes and
(when allocation succeeds) a command is submitted. -/
theorem create_cdq_size_multiple_of_eight (cfg : CreateCdqConfig) (env : Env) :
    (cfg.sz % 8 ≠ 0 → lm_create_cdq cfg env = ⟨EINVAL, none⟩) ∧
    (cfg.sz % 8 = 0 → env.allocOk = true →
      (lm_create_cdq cfg env).ret = env.submitResult ∧
      (lm_create_cdq cfg env).submitted.isSome = true) := by
  have hsz : lba_migration_queue_entry_type_0_size >>> 2 = 8 := rfl
  constructor
  · intro h
    unfold lm_create_cdq
    rw [hsz, if_pos h]
  · intro h ha
    unfold lm_create_cdq
    rw [hsz, if_neg (fun hn => hn h), if_neg (by simp [ha])]
    exact ⟨rfl, rfl⟩

/-- Witness for C8 on the spec's own examples: size 7 fails with EINVAL,
size 8 passes validation and submits. -/
theorem create_cdq_size_multiple_of_eight_check :
    lm_create_cdq ⟨7, 0, 0⟩ envOk = ⟨EINVAL, none⟩ ∧
    (lm_create_cdq ⟨8, 0, 0⟩ envOk).submitted.isSome = true :=
  ⟨(create_cdq_size_multiple_of_eight ⟨7, 0, 0⟩ envOk).1 (by decide),
   ((create_cdq_size_multiple_of_eight ⟨8, 0, 0⟩ envOk).2 (by decide) (by decide)).2⟩

/-- C9: every Track Send request with both the start and the stop flag
set fails with -EINVAL and no command is packed or submitted (whatever
the other fields are, every path taken returns ⟨-EINVAL, none⟩). -/
theorem track_send_start_stop_exclusive (cfg : TrackSendConfig) (env : Env)
    (hstart : cfg.start = true) (hstop : cfg.stop = true) :
    lm_track_send cfg env = ⟨-EINVAL, none⟩ := by
  simp only [lm_track_send, hstart, hstop, Bool.and_self, if_true]
  split
  · rfl
  · split
    · rfl
    · rfl

/-- Witness for C9 at a concrete request: select=0, both flags set. -/
theorem track_send_start_stop_exclusive_check :
    lm_track_send ⟨0, 0, 0, true, true⟩ envOk = ⟨-EINVAL, none⟩ :=
  track_send_start_stop_exclusive ⟨0, 0, 0, true, true⟩ envOk rfl rfl

/-- C10: when lm_set_cdq is invoked with the trigger left at its -1
sentinel, the has-trigger bit (cdw11 bit 31) is cleared (cdw11 is just
the cdq id) while cdw13 is still 0xFFFFFFFF — the sentinel reinterpreted
as unsigned — and not zero. -/
theorem set_cdq_no_trigger_sentinel (cfg : SetCdqConfig)
    (h : cfg.tpt = -1) (hc : cfg.cdqid < 2 ^ 16) :
    (lm_set_cdq_args cfg).cdw11.testBit 31 = false ∧
    (lm_set_cdq_args cfg).cdw11 = cfg.cdqid ∧
    (lm_set_cdq_args cfg).cdw13 = 0xFFFFFFFF ∧
    (lm_set_cdq_args cfg).cdw13 ≠ 0 := by
  have hneg : ¬ (cfg.tpt ≥ 0) := by rw [h]; decide
  have h11 : (lm_set_cdq_args cfg).cdw11 = cfg.cdqid := by
    simp [lm_set_cdq_args, hneg]
  have h13 : (lm_set_cdq_args cfg).cdw13 = 0xFFFFFFFF := by
    simp [lm_set_cdq_args, h]
  refine ⟨?_, h11, h13, by rw [h13]; decide⟩
  rw [h11]
  have hd : cfg.cdqid / 2147483648 = 0 :=
    Nat.div_eq_of_lt (lt_trans hc (by norm_num))
  simp [Nat.testBit, Nat.shiftRight_eq_div_pow, hd]

/-- Witness for C10 at cdqid=3, hp=7, tpt=-1. -/
theorem set_cdq_no_trigger_sentinel_check :
    (lm_set_cdq_args ⟨3, 7, -1⟩).cdw11.testBit 31 = false ∧
    (lm_set_cdq_args ⟨3, 7, -1⟩).cdw11 = 3 ∧
    (lm_set_cdq_args ⟨3, 7, -1⟩).cdw13 = 0xFFFFFFFF ∧
    (lm_set_cdq_args ⟨3, 7, -1⟩).cdw13 ≠ 0 :=
  set_cdq_no_trigger_sentinel ⟨3, 7, -1⟩ rfl (by decide)

/-! ## Migration Send (lm_migration_send) -/

/-- enum lm_migration_send_select. -/
def MIGRATION_SEND_SUSPEND : Nat := 0

/-- enum lm_migration_send_select. -/
def MIGRATION_SEND_RESUME : Nat := 1

/-- enum lm_migration_send_select. -/
def MIGRATION_SEND_SET_CONTROLLER_STATE : Nat := 2

/-- Parsed options of lm_migration_send.  sel, stype, seqind, csuuidi and
csvi are __u8 fields, cntlid __u16, offset __u64, numd __u32; input is
the -f file name pointer (none = NULL). -/
structure MigrationSendConfig where
  sel : Nat
  stype : Nat
  seqind : Nat
  csuuidi : Nat
  csvi : Nat
  cntlid : Nat
  offset : Nat
  numd : Nat
  input : Option String
  delete : Bool
  deriving Repr, DecidableEq

/-- The defaults of struct config in lm_migration_send; the initializer
`.sel = -1` stores 0xFF = 255 in the __u8 field. -/
def migrationSendDefaultCfg : MigrationSendConfig :=
  { sel := 255, stype := 0, seqind := 0, csuuidi := 0, csvi := 0,
    cntlid := 0, offset := 0, numd := 0, input := none, delete := false }

/-- Result of one operation where C may also run into undefined behavior
(strlen applied to a NULL pointer). -/
inductive Outcome where
  | ret (r : Int) (submitted : Option CmdRecord)
  | crash
  deriving Repr, DecidableEq

/-- The command submitted by an outcome, if any. -/
def Outcome.submitted : Outcome → Option CmdRecord
  | .ret _ s => s
  | .crash => none

/-- The int returned by an outcome, if it returns. -/
def Outcome.retCode : Outcome → Option Int
  | .ret r _ => some r
  | .crash => none

/-- The C test `cfg.input && strlen(cfg.input)`: a non-NULL, nonempty
file name was supplied. -/
def payloadNamed : Option String → Bool
  | none => false
  | some s => s.length != 0

/-- The struct nvme_passthru_cmd built by lm_migration_send (source lines
436–447); dataAddr is the `data` pointer (0 = NULL when no payload was
loaded).  cdw12/cdw13 are the low/high dwords of the 64-bit offset and
data_len is the __u32 value of `numd << 2`. -/
def lm_migration_send_cmd (cfg : MigrationSendConfig) (dataAddr : Nat) : CmdRecord :=
  { opcode := NVME_ADMIN_MIGRATION_SEND,
    cdw10 := (cfg.seqind <<< 16) ||| cfg.sel,
    cdw11 :=
      if cfg.sel = MIGRATION_SEND_SET_CONTROLLER_STATE then
        (cfg.csuuidi <<< 24) ||| (cfg.csvi <<< 16) ||| cfg.cntlid
      else
        ((if cfg.delete then 1 else 0) <<< 31) ||| (cfg.stype <<< 16) ||| cfg.cntlid,
    cdw12 := cfg.offset % 2 ^ 32,
    cdw13 := (cfg.offset >>> 32) % 2 ^ 32,
    cdw15 := cfg.numd,
    addr := dataAddr,
    data_len := (cfg.numd <<< 2) % 2 ^ 32 }

/-- The input-file block and the command construction/submission shared
by every select value (source lines 415–458): when a nonempty file name
was supplied the payload is loaded into an allocated buffer (fopen,
alloc and short-read failures return before submission), otherwise
`data` stays NULL; the submit status is returned unmodified. -/
def lm_migration_send_load_and_submit (cfg : MigrationSendConfig) (env : Env) : Outcome :=
  if payloadNamed cfg.input then
    if env.fopenOk = false then .ret (-EINVAL) none
    else if env.allocOk = false then .ret (-ENOMEM) none
    else if env.readFull = false then .ret (-env.readErrno) none
    else .ret env.submitResult (some (lm_migration_send_cmd cfg env.bufAddr))
  else
    .ret env.submitResult (some (lm_migration_send_cmd cfg 0))

/-- lm_migration_send after option parsing.  The guard `cfg.sel == -1`
compares the int-promoted __u8 (0..255) against -1, exactly as the C
does; the per-select sanity checks follow (for Set Controller State the
C calls strlen on the possibly-NULL input pointer, which is undefined
when no file was named). -/
def lm_migration_send (cfg : MigrationSendConfig) (env : Env) : Outcome :=
  if (Int.ofNat cfg.sel) = -1 then .ret (-EINVAL) none
  else if cfg.sel = MIGRATION_SEND_SUSPEND ∨ cfg.sel = MIGRATION_SEND_RESUME then
    if cfg.csuuidi ≠ 0 ∨ cfg.csvi ≠ 0 then .ret (-EINVAL) none
    else lm_migration_send_load_and_submit cfg env
  else if cfg.sel = MIGRATION_SEND_SET_CONTROLLER_STATE then
    if cfg.delete = true ∨ cfg.stype ≠ 0 then .ret (-EINVAL) none
    else
      match cfg.input with
      | none => .crash
      | some s =>
        if s.length = 0 then .ret (-EINVAL) none
        else lm_migration_send_load_and_submit cfg env
  else lm_migration_send_load_and_submit cfg env

/-! ## Migration Receive (lm_migration_recv) -/

/-- enum lm_migration_recv_select. -/
def MIGRATION_RECV_GET_CONTROLLER_STATE : Nat := 0

/-- Parsed options of lm_migration_recv, with the print flags produced by
validate_output_format. -/
structure MigrationRecvConfig where
  cntlid : Nat
  csuuidi : Nat
  csvi : Nat
  offset : Nat
  numd : Nat
  output : Option String
  binary : Bool
  deriving Repr, DecidableEq

/-- External collaborators of lm_migration_recv: output-format
validation, fopen of the output file, the buffer provider, fwrite, and
the transport. -/
structure RecvEnv where
  formatResult : Int
  fopenOk : Bool
  allocOk : Bool
  writeOk : Bool
  writeErrno : Int
  bufAddr : Nat
  submitResult : Int
  deriving Repr, DecidableEq

/-- lm_migration_recv after option parsing.  cfg.output_format is always
a non-NULL string (default "normal"), so the offset check reduces to
`offset != 0 && !(flags & BINARY)`.  The source tests the fopen result
with `fd < 0`, but fopen returns a pointer (NULL on failure), never a
negative value, so that branch cannot fire and is not modelled as a
failure path.  After submission every branch only prints (the
fwrite-failure branch assigns err = -errno, which the final statement
then discards): the function ends with `return 0` unconditionally. -/
def lm_migration_recv (cfg : MigrationRecvConfig) (env : RecvEnv) : OpResult :=
  if env.formatResult < 0 then ⟨env.formatResult, none⟩
  else if cfg.offset ≠ 0 ∧ cfg.binary = false then ⟨-EINVAL, none⟩
  else if env.allocOk = false then ⟨-ENOMEM, none⟩
  else
    let cmd : CmdRecord :=
      { opcode := NVME_ADMIN_MIGRATION_RECEIVE,
        cdw10 := (cfg.csvi <<< 16) ||| MIGRATION_RECV_GET_CONTROLLER_STATE,
        cdw11 := (cfg.csuuidi <<< 16) ||| cfg.cntlid,
        cdw12 := cfg.offset % 2 ^ 32,
        cdw13 := (cfg.offset >>> 32) % 2 ^ 32,
        cdw15 := cfg.numd,
        addr := env.bufAddr,
        data_len := ((cfg.numd + 1) <<< 2) % 2 ^ 32 }
    let err1 := env.submitResult
    let _err2 : Int :=
      if err1 < 0 then err1
      else if err1 > 0 then err1
      else if payloadNamed cfg.output && !env.writeOk then -env.writeErrno
      else err1
    ⟨0, some cmd⟩

/-! ## Theorems for claims C1, C5, C6, C7 -/

/-- C1: for select = Set Controller State the encoder packs cdw11 as
uuid-index in bits 31:24, version-index in bits 23:16 and controller-id
in bits 15:0, i.e. cdw11 = csuuidi*2^24 + csvi*2^16 + cntlid. -/
theorem migration_send_set_state_cdw11 (cfg : MigrationSendConfig) (a : Nat)
    (hsel : cfg.sel = MIGRATION_SEND_SET_CONTROLLER_STATE)
    (_hu : cfg.csuuidi < 2 ^ 8) (hv : cfg.csvi < 2 ^ 8) (hc : cfg.cntlid < 2 ^ 16) :
    (lm_migration_send_cmd cfg a).cdw11 =
      cfg.csuuidi * 2 ^ 24 + cfg.csvi * 2 ^ 16 + cfg.cntlid := by
  unfold lm_migration_send_cmd
  simp only [hsel, if_pos rfl]
  have e1 : cfg.csuuidi <<< 24 = 2 ^ 24 * cfg.csuuidi := by
    rw [Nat.shiftLeft_eq]; ring
  have e2 : cfg.csvi <<< 16 = 2 ^ 16 * cfg.csvi := by
    rw [Nat.shiftLeft_eq]; ring
  have h1 : 2 ^ 16 * cfg.csvi < 2 ^ 24 := by omega
  have s1 : (cfg.csuuidi <<< 24) ||| (cfg.csvi <<< 16) =
      2 ^ 24 * cfg.csuuidi + 2 ^ 16 * cfg.csvi := by
    rw [e1, e2, ← Nat.mul_add_lt_is_or h1]
  have e3 : 2 ^ 24 * cfg.csuuidi + 2 ^ 16 * cfg.csvi =
      2 ^ 16 * (2 ^ 8 * cfg.csuuidi + cfg.csvi) := by ring
  have s2 : (2 ^ 24 * cfg.csuuidi + 2 ^ 16 * cfg.csvi) ||| cfg.cntlid =
      2 ^ 24 * cfg.csuuidi + 2 ^ 16 * cfg.csvi + cfg.cntlid := by
    rw [e3, ← Nat.mul_add_lt_is_or hc]
  rw [s1, s2]
  simp [Nat.mul_comm]

/-- The concrete Set Controller State request of claim C1: uuid-index 1,
version-index 2, controller-id 5, with an input payload named. -/
def cfgC1 : MigrationSendConfig :=
  { sel := 2, stype := 0, seqind := 0, csuuidi := 1, csvi := 2,
    cntlid := 5, offset := 0, numd := 8, input := some "state.bin",
    delete := false }

/-- Witness for C1: the encoded cdw11 for uuid-index=1, version-index=2,
controller-id=5 equals 0x01020005, and this command is what the full
operation submits. -/
theorem migration_send_set_state_cdw11_check :
    (lm_migration_send_cmd cfgC1 4096).cdw11 = 0x01020005 ∧
    (lm_migration_send cfgC1 envOk).submitted =
      some (lm_migration_send_cmd cfgC1 4096) := by
  constructor
  · have h := migration_send_set_state_cdw11 cfgC1 4096 rfl
      (by decide) (by decide) (by decide)
    rw [h]
    decide
  · decide

/-- C5 (code bug): the select-required guard of lm_migration_send
compares the promoted __u8 against -1 and can never fire, and no check
rejects select values outside {0,1,2}; with no select supplied (the
stored default 0xFF) and likewise with select=5, validation passes, the
command is encoded (the bogus select leaking into cdw10 bits 7:0) and
it is submitted. -/
theorem migration_send_missing_select_still_submits :
    (lm_migration_send migrationSendDefaultCfg envOk).submitted =
      some (lm_migration_send_cmd migrationSendDefaultCfg 0) ∧
    (lm_migration_send_cmd migrationSendDefaultCfg 0).cdw10 = 255 ∧
    (lm_migration_send { migrationSendDefaultCfg with sel := 5 } envOk).submitted =
      some (lm_migration_send_cmd { migrationSendDefaultCfg with sel := 5 } 0) ∧
    (lm_migration_send_cmd { migrationSendDefaultCfg with sel := 5 } 0).cdw10 = 5 := by
  refine ⟨?_, ?_, ?_, ?_⟩ <;> decide

/-- The default-configured migration receive of claim C6. -/
def recvCfg0 : MigrationRecvConfig :=
  { cntlid := 0, csuuidi := 0, csvi := 0, offset := 0, numd := 0,
    output := none, binary := false }

/-- A migration-receive environment whose transport reports device
status 5. -/
def recvEnvStatus5 : RecvEnv :=
  { formatResult := 0, fopenOk := true, allocOk := true, writeOk := true,
    writeErrno := 5, bufAddr := 4096, submitResult := 5 }

/-- C6 (code bug): lm_migration_recv ends with `return 0` whatever
nvme_submit_admin_passthru returned, so a device status of 5 is
swallowed and the caller sees success; lm_create_cdq, by contrast,
does return the submit status unmodified. -/
theorem migration_recv_swallows_submit_status :
    (lm_migration_recv recvCfg0 recvEnvStatus5).ret = 0 ∧
    recvEnvStatus5.submitResult = 5 ∧
    (lm_migration_recv recvCfg0 recvEnvStatus5).submitted.isSome = true ∧
    (lm_create_cdq ⟨8, 0, 0⟩ { envOk with submitResult := 5 }).ret = 5 := by
  refine ⟨?_, ?_, ?_, ?_⟩ <;> decide

/-- A Suspend request (select=0) with numd=5 and no input payload. -/
def cfgSuspendNumd5 : MigrationSendConfig :=
  { sel := 0, stype := 0, seqind := 0, csuuidi := 0, csvi := 0,
    cntlid := 0, offset := 0, numd := 5, input := none, delete := false }

/-- A Suspend request (select=0) with an input payload file supplied. -/
def cfgSuspendWithFile : MigrationSendConfig :=
  { sel := 0, stype := 0, seqind := 0, csuuidi := 0, csvi := 0,
    cntlid := 0, offset := 0, numd := 1, input := some "f", delete := false }

/-- C7 counterexample: a valid Suspend request with numd=5 is submitted
with data_len = 20 ≠ 0, and a Suspend request with an input file named
is submitted with the payload buffer attached (addr ≠ 0), refuting both
"for Suspend/Resume buffer address and data length are zero" and
"a buffer is attached only when select=SetControllerState". -/
theorem migration_send_suspend_buffer_counterexample :
    (lm_migration_send cfgSuspendNumd5 envOk).submitted =
      some (lm_migration_send_cmd cfgSuspendNumd5 0) ∧
    (lm_migration_send_cmd cfgSuspendNumd5 0).data_len = 20 ∧
    (lm_migration_send cfgSuspendWithFile envOk).submitted =
      some (lm_migration_send_cmd cfgSuspendWithFile 4096) ∧
    (lm_migration_send_cmd cfgSuspendWithFile 4096).addr = 4096 := by
  refine ⟨?_, ?_, ?_, ?_⟩ <;> decide

/-- C7 amended: whichever select is used, a submitted Migration Send
command carries the payload buffer address exactly when a nonempty input
file name was supplied (the payload is loaded regardless of select), and
its data length always equals numd*4 reduced mod 2^32 (so it is zero for
a payload-less Suspend/Resume only when numd = 0). -/
theorem migration_send_buffer_attachment (cfg : MigrationSendConfig) (env : Env)
    (cmd : CmdRecord) (h : (lm_migration_send cfg env).submitted = some cmd)
    (hb : env.bufAddr ≠ 0) :
    (cmd.addr ≠ 0 ↔ payloadNamed cfg.input = true) ∧
    cmd.data_len = (cfg.numd * 4) % 2 ^ 32 := by
  have hload : ∀ c, (lm_migration_send_load_and_submit cfg env).submitted = some c →
      (c.addr ≠ 0 ↔ payloadNamed cfg.input = true) ∧
      c.data_len = (cfg.numd * 4) % 2 ^ 32 := by
    intro c hc
    unfold lm_migration_send_load_and_submit at hc
    by_cases hp : payloadNamed cfg.input = true
    · rw [if_pos hp] at hc
      split at hc
      · exact absurd hc (by simp [Outcome.submitted])
      · split at hc
        · exact absurd hc (by simp [Outcome.submitted])
        · split at hc
          · exact absurd hc (by simp [Outcome.submitted])
          · simp only [Outcome.submitted, Option.some.injEq] at hc
            subst hc
            have e4 : cfg.numd <<< 2 = cfg.numd * 4 := by rw [Nat.shiftLeft_eq]
            refine ⟨by simpa [lm_migration_send_cmd] using ⟨fun _ => hp, fun _ => hb⟩, ?_⟩
            simp [lm_migration_send_cmd, e4]
    · rw [if_neg hp] at hc
      simp only [Outcome.submitted, Option.some.injEq] at hc
      subst hc
      have e4 : cfg.numd <<< 2 = cfg.numd * 4 := by rw [Nat.shiftLeft_eq]
      refine ⟨by simpa [lm_migration_send_cmd] using hp, ?_⟩
      simp [lm_migration_send_cmd, e4]
  unfold lm_migration_send at h
  split at h
  · exact absurd h (by simp [Outcome.submitted])
  · split at h
    · split at h
      · exact absurd h (by simp [Outcome.submitted])
      · exact hload cmd h
    · split at h
      · split at h
        · exact absurd h (by simp [Outcome.submitted])
        · split at h
          · exact absurd h (by simp [Outcome.submitted])
          · split at h
            · exact absurd h (by simp [Outcome.submitted])
            · exact hload cmd h
      · exact hload cmd h

/-- Witness for the amended C7 at the Suspend request with numd=5 and no
payload: address 0 (no payload supplied) and data length 20. -/
theorem migration_send_buffer_attachment_check :
    ((lm_migration_send_cmd cfgSuspendNumd5 0).addr ≠ 0 ↔
      payloadNamed cfgSuspendNumd5.input = true) ∧
    (lm_migration_send_cmd cfgSuspendNumd5 0).data_len =
      (cfgSuspendNumd5.numd * 4) % 2 ^ 32 :=
  migration_send_buffer_attachment cfgSuspendNumd5 envOk
    (lm_migration_send_cmd cfgSuspendNumd5 0) (by decide) (by decide)

/-! ## Controller State Data decoding

The buffer handed back by Migration Receive is modelled as a list of
bytes.  struct layouts (all fields naturally aligned, no padding, sizes
checked by the source's static_asserts):

  struct controller_state_data_header (48 B):
    ver @0 (2 B), csattr @2 (1 B), rsvd3 @3 (13 B),
    nvmecss @16 (16 B), vss @32 (16 B)
  struct nvme_controller_state_header (8 B), at offset 48:
    ver @48, niosq @50, niocq @52, rsvd @54
  24-byte queue records from offset 56 (sq[] and cq[] overlay the same
  flexible array through a union):
    struct nvme_io_submission_queue_data @o:
      prp1 @o, qsize @o+8, qid @o+10, cqid @o+12, attrs @o+14,
      hp @o+16, tp @o+18, rsvd @o+20
    struct nvme_io_completion_queue_data @o:
      prp1 @o, qsize @o+8, qid @o+10, hp @o+12, tp @o+14,
      attrs @o+16 (4 B), rsvd @o+20

Accesses wrapped in leXX_to_cpu are modelled as little-endian byte
assembly (on a big-endian host the native struct load composed with the
byte swap yields exactly the little-endian value, so this is
host-independent).  Raw struct loads (no leXX_to_cpu) are modelled
host-dependent via the `le` flag: little-endian assembly when the host
is little-endian, big-endian assembly otherwise. -/

/-- One byte of the device buffer (reads beyond the list give 0). -/
def byteAt (b : List Nat) (i : Nat) : Nat := (b.getD i 0) % 256

/-- Little-endian 16-bit read at byte offset i. -/
def read16le (b : List Nat) (i : Nat) : Nat := byteAt b i + 256 * byteAt b (i + 1)

/-- A raw 16-bit struct-field load on a host whose native order is
little-endian iff `le`. -/
def read16host (le : Bool) (b : List Nat) (i : Nat) : Nat :=
  if le then read16le b i else byteAt b i * 256 + byteAt b (i + 1)

/-- Byte swap of a 16-bit value. -/
def swap16 (v : Nat) : Nat := (v % 256) * 256 + (v / 256) % 256

/-- le16_to_cpu applied to an already-loaded 16-bit value (identity on a
little-endian host, byte swap otherwise). -/
def le16_to_cpu_val (le : Bool) (v : Nat) : Nat :=
  if le then v % 2 ^ 16 else swap16 (v % 2 ^ 16)

/-- Little-endian 32-bit read. -/
def read32le (b : List Nat) (i : Nat) : Nat := read16le b i + 2 ^ 16 * read16le b (i + 2)

/-- Little-endian 64-bit read. -/
def read64le (b : List Nat) (i : Nat) : Nat := read32le b i + 2 ^ 32 * read32le b (i + 4)

/-- Little-endian 128-bit read (le128_to_cpu). -/
def read128le (b : List Nat) (i : Nat) : Nat := read64le b i + 2 ^ 64 * read64le b (i + 8)

/-- sizeof(struct controller_state_data_header) = 48. -/
def controller_state_data_header_size : Nat := 48

/-- sizeof(struct nvme_controller_state_header) = 8. -/
def nvme_controller_state_header_size : Nat := 8

/-- sizeof the two io queue record structs = 24. -/
def io_queue_record_size : Nat := 24

/-- Byte offset of the first queue record (48 + 8). -/
def recordAreaStart : Nat := 56

/-- Decoded fields of struct nvme_io_submission_queue_data. -/
structure SqRecord where
  prp1 : Nat
  qsize : Nat
  qid : Nat
  cqid : Nat
  attrs : Nat
  hp : Nat
  tp : Nat
  deriving Repr, DecidableEq

/-- Read one submission-queue record at byte offset o; every field is
accessed through leN_to_cpu in both renderers. -/
def decodeSq (b : List Nat) (o : Nat) : SqRecord :=
  { prp1 := read64le b o, qsize := read16le b (o + 8), qid := read16le b (o + 10),
    cqid := read16le b (o + 12), attrs := read16le b (o + 14),
    hp := read16le b (o + 16), tp := read16le b (o + 18) }

/-- Decoded fields of struct nvme_io_completion_queue_data. -/
structure CqRecord where
  prp1 : Nat
  qsize : Nat
  qid : Nat
  hp : Nat
  tp : Nat
  attrs : Nat
  deriving Repr, DecidableEq

/-- Read one completion-queue record at byte offset o. -/
def decodeCq (b : List Nat) (o : Nat) : CqRecord :=
  { prp1 := read64le b o, qsize := read16le b (o + 8), qid := read16le b (o + 10),
    hp := read16le b (o + 12), tp := read16le b (o + 14),
    attrs := read32le b (o + 16) }

/-- What the formatted-text rendering of show_controller_state_data
emits.  Each queue record is paired with the byte offset it was read
from. -/
structure TextResult where
  headerTruncated : Bool := false
  version : Option Nat := none
  csattr : Option Nat := none
  nvmecss : Option Nat := none
  vss : Option Nat := none
  stateTruncated : Bool := false
  innerVersion : Option Nat := none
  niosqShown : Option Nat := none
  niocqShown : Option Nat := none
  sqTruncated : Bool := false
  sqRecords : List (Nat × SqRecord) := []
  cqTruncated : Bool := false
  cqRecords : List (Nat × CqRecord) := []
  deriving Repr, DecidableEq

/-- show_controller_state_data, text path (flags without BINARY/JSON,
offset 0), on a host with little-endian native order iff `le` (source
lines 606–710).  The outer version is printed from the raw struct field
(no le16_to_cpu); `int niosq`/`int niocq` are raw struct loads used as
the loop bounds, while the printed counts pass those ints through
le16_to_cpu; the submission-queue count is clamped to the remaining
length with a truncation warning, the remaining length is decremented by
the clamped count, the completion-queue count is clamped against what is
left, and completion record i is read from &sq-area[niosq + i] (with the
clamped niosq). -/
def show_controller_state_text (le : Bool) (b : List Nat) (len : Nat) : TextResult :=
  if controller_state_data_header_size ≤ len then
    let version := read16host le b 0
    let csattr := byteAt b 2
    let nvmecss := read128le b 16
    let vss := read128le b 32
    let len1 := len - controller_state_data_header_size
    if len1 = 0 then
      { version := some version, csattr := some csattr,
        nvmecss := some nvmecss, vss := some vss }
    else if nvme_controller_state_header_size ≤ len1 then
      let niosq := read16host le b 50
      let niocq := read16host le b 52
      let len2 := len1 - nvme_controller_state_header_size
      let sqTrunc := decide (len2 < niosq * io_queue_record_size)
      let niosqC := if len2 < niosq * io_queue_record_size then
        len2 / io_queue_record_size else niosq
      let sqRecords := (List.range niosqC).map fun i =>
        (recordAreaStart + io_queue_record_size * i,
         decodeSq b (recordAreaStart + io_queue_record_size * i))
      let len3 := len2 - niosqC * io_queue_record_size
      let cqTrunc := decide (len3 < niocq * io_queue_record_size)
      let niocqC := if len3 < niocq * io_queue_record_size then
        len3 / io_queue_record_size else niocq
      let cqRecords := (List.range niocqC).map fun i =>
        (recordAreaStart + io_queue_record_size * (niosqC + i),
         decodeCq b (recordAreaStart + io_queue_record_size * (niosqC + i)))
      { version := some version, csattr := some csattr,
        nvmecss := some nvmecss, vss := some vss,
        innerVersion := some (read16le b 48),
        niosqShown := some (le16_to_cpu_val le niosq),
        niocqShown := some (le16_to_cpu_val le niocq),
        sqTruncated := sqTrunc, sqRecords := sqRecords,
        cqTruncated := cqTrunc, cqRecords := cqRecords }
    else
      { version := some version, csattr := some csattr,
        nvmecss := some nvmecss, vss := some vss, stateTruncated := true }
  else
    { headerTruncated := true }

/-- What the JSON rendering emits. -/
structure JsonResult where
  version : Nat
  csattr : Nat
  nvmecss : Nat
  vss : Nat
  innerVersion : Nat
  niosqShown : Nat
  niocqShown : Nat
  sqRecords : List (Nat × SqRecord)
  cqRecords : List (Nat × CqRecord)
  deriving Repr, DecidableEq

/-- json_controller_state_data (source lines 515–590), on a host with
little-endian native order iff `le`.  The displayed scalar fields all go
through leN_to_cpu, but the loop bounds are the raw niosq/niocq struct
loads, no clamping against the buffer length takes place (the `len`
parameter is unused by the source), and the i-th completion-queue record
is taken from &data->sdata.cq[i] — 24-byte slot i of the record area,
counted from its start. -/
def json_controller_state_data (le : Bool) (b : List Nat) (_len : Nat) : JsonResult :=
  { version := read16le b 0,
    csattr := byteAt b 2,
    nvmecss := read128le b 16,
    vss := read128le b 32,
    innerVersion := read16le b 48,
    niosqShown := read16le b 50,
    niocqShown := read16le b 52,
    sqRecords := (List.range (read16host le b 50)).map fun i =>
      (recordAreaStart + io_queue_record_size * i,
       decodeSq b (recordAreaStart + io_queue_record_size * i)),
    cqRecords := (List.range (read16host le b 52)).map fun i =>
      (recordAreaStart + io_queue_record_size * i,
       decodeCq b (recordAreaStart + io_queue_record_size * i)) }

/-! ## Concrete controller-state buffers for claims C2, C3, C4 -/

/-- A 48-byte outer header with version bytes v0 v1 (little-endian),
csattr = 1 and zeroed reserved/size fields. -/
def hdr48 (v0 v1 : Nat) : List Nat := [v0, v1, 1] ++ List.replicate 45 0

/-- A 24-byte submission-queue record: prp1 = 0x1000, qsize = 64,
the given queue id (low byte), cqid = 1, attrs = 1, hp = 3, tp = 4. -/
def sqRecBytes (qid : Nat) : List Nat :=
  [0, 16, 0, 0, 0, 0, 0, 0, 64, 0, qid, 0, 1, 0, 1, 0, 3, 0, 4, 0, 0, 0, 0, 0]

/-- A 24-byte completion-queue record: prp1 = 0x2000, qsize = 16, the
given queue id (low byte), hp = 5, tp = 6, attrs = 2. -/
def cqRecBytes (qid : Nat) : List Nat :=
  [0, 32, 0, 0, 0, 0, 0, 0, 16, 0, qid, 0, 5, 0, 6, 0, 2, 0, 0, 0, 0, 0, 0, 0]

/-- The 80-byte buffer of claim C2: outer header, inner header declaring
niosq = 2 and niocq = 0, then room for only one 24-byte record. -/
def bufC2 : List Nat := hdr48 1 0 ++ [1, 0, 2, 0, 0, 0, 0, 0] ++ sqRecBytes 7

/-- The 104-byte buffer of claim C3: niosq = 1, niocq = 1, one
submission-queue record with qid 0x11 in slot 0, one completion-queue
record with qid 0x22 in slot 1. -/
def bufC3 : List Nat :=
  hdr48 1 0 ++ [1, 0, 1, 0, 1, 0, 0, 0] ++ sqRecBytes 0x11 ++ cqRecBytes 0x22

/-- The 104-byte buffer of claim C4: outer version bytes 34 12
(little-endian value 0x1234), niosq = 2 (bytes 02 00), niocq = 0, and
both declared submission-queue records present. -/
def bufC4 : List Nat :=
  hdr48 0x34 0x12 ++ [1, 0, 2, 0, 0, 0, 0, 0] ++ sqRecBytes 1 ++ sqRecBytes 2

/-! ## Theorems for claims C2, C3, C4 -/

/-- C2 (code bug): on the 80-byte buffer declaring niosq=2, niocq=0, the
text rendering clamps to exactly one submission-queue record and raises
the truncation warning as the claim demands, but the JSON rendering of
the same decode emits two records — iterating the full declared count
with no clamping and no truncation indication, reading past the end of
the buffer. -/
theorem controller_state_truncation_clamp_json_divergence :
    (show_controller_state_text true bufC2 80).sqRecords.length = 1 ∧
    (show_controller_state_text true bufC2 80).sqTruncated = true ∧
    (show_controller_state_text true bufC2 80).niosqShown = some 2 ∧
    (json_controller_state_data true bufC2 80).sqRecords.length = 2 ∧
    (json_controller_state_data true bufC2 80).niosqShown = 2 := by
  refine ⟨rfl, rfl, rfl, rfl, rfl⟩

/-- C3 (code bug): on the 104-byte buffer with niosq=1, niocq=1, the
text rendering reads completion-queue record 0 from 24-byte slot
niosq + 0 (byte offset 80, qid 0x22), but the JSON rendering reads it
from slot 0 (byte offset 56, the first submission-queue record, whose
qid is 0x11). -/
theorem controller_state_cq_slot_divergence :
    ((show_controller_state_text true bufC3 104).cqRecords.map Prod.fst) = [80] ∧
    ((json_controller_state_data true bufC3 104).cqRecords.map Prod.fst) = [56] ∧
    ((show_controller_state_text true bufC3 104).cqRecords.map fun r => r.2.qid) = [0x22] ∧
    ((json_controller_state_data true bufC3 104).cqRecords.map fun r => r.2.qid) = [0x11] ∧
    (decodeSq bufC3 56).qid = 0x11 := by
  refine ⟨rfl, rfl, rfl, rfl, rfl⟩

/-- C4 (code bug): the text rendering prints the outer version from the
raw struct field and uses raw niosq/niocq loads as loop bounds, so its
output depends on host byte order: on the C4 buffer (version bytes
34 12, niosq bytes 02 00) a little-endian host shows version 0x1234 and
two untruncated records, while a big-endian host shows version 0x3412
and — because the loop bound is the byte-swapped count 512 — spuriously
warns of truncation (the printed count is 2 on both, since the source
passes the already-native value through le16_to_cpu again). -/
theorem controller_state_endianness_divergence :
    (show_controller_state_text true bufC4 104).version = some 0x1234 ∧
    (show_controller_state_text false bufC4 104).version = some 0x3412 ∧
    (show_controller_state_text true bufC4 104).sqTruncated = false ∧
    (show_controller_state_text true bufC4 104).sqRecords.length = 2 ∧
    (show_controller_state_text false bufC4 104).sqTruncated = true ∧
    (show_controller_state_text false bufC4 104).niosqShown = some 2 ∧
    read16host false bufC4 50 = 512 ∧ read16le bufC4 50 = 2 := by
  refine ⟨rfl, rfl, rfl, rfl, rfl, rfl, rfl, rfl⟩

end LmNvme
